import Mathlib

/-!
Verification of the context-management core of RustaCUDA (src/src/context.rs).

The Rust source is a thin wrapper over the native CUDA driver API. The driver
itself is not part of this repository, so it is modelled here as an explicit
state machine over the calling thread's view of the world (context stacks are
thread-local, so one stack suffices per claim): a stack of native handles, a
table of live contexts, and a handle counter. Every `cuCtx...` definition below
is marked `Modelled from the spec:` and follows the spec's description of the
native layer. Every other definition is translated directly from the Rust
source in src/src/context.rs.
-/

namespace RustaCuda

/-- Native context handle (CUcontext). The null pointer is modelled as 0. -/
abbrev CUcontext := Nat

/-- Native CUDA status code: 0 is CUDA_SUCCESS, anything else is an error. -/
abbrev CUresult := Nat

/-- CUDA_ERROR_INVALID_CONTEXT, the status the native layer reports for a
dead handle or for a current-context operation with no current context. -/
def INVALID_CONTEXT : CUresult := 201

/-- Modelled from the spec: the per-context state the native layer keeps
(creation flags, bound device, API version, cache and shared-memory
configuration, resource limits keyed by the native limit code). -/
structure CtxInfo where
  flags : Nat
  device : Int
  apiVersion : Nat
  cacheConfig : Nat
  sharedMemConfig : Nat
  limits : List (Nat × Nat)
  deriving DecidableEq, Repr

/-- Modelled from the spec: the native driver state as seen by the calling
thread. `stack` is the thread-local context stack (top first), `ctxs` the
table of live contexts, `nextHandle` generates fresh nonzero handles. -/
structure DriverState where
  stack : List CUcontext
  ctxs : List (CUcontext × CtxInfo)
  nextHandle : CUcontext
  deriving DecidableEq, Repr

/-- Handles of the live (not yet destroyed) contexts. -/
def DriverState.liveHandles (st : DriverState) : List CUcontext :=
  st.ctxs.map Prod.fst

/-- Info of the context on top of the calling thread's stack, if any. -/
def DriverState.currentInfo (st : DriverState) : Option CtxInfo :=
  match st.stack with
  | [] => none
  | h :: _ => st.ctxs.lookup h

/-- Update the stored info of context `h` in place. -/
def DriverState.updateCtx (st : DriverState) (h : CUcontext) (f : CtxInfo → CtxInfo) :
    DriverState :=
  { st with ctxs := st.ctxs.map (fun p => if p.1 = h then (p.1, f p.2) else p) }

/-- API version the modelled driver records for a newly created context. -/
def defaultApiVersion : Nat := 3020

/-- Modelled from the spec: cuCtxCreate_v2 creates a context for the device
with the given flag bits and, as an unavoidable side effect, pushes it onto
the creating thread's stack, returning the new handle. -/
def cuCtxCreate (flags : Nat) (device : Int) (st : DriverState) :
    CUresult × CUcontext × DriverState :=
  let h := st.nextHandle
  (0, h,
    { stack := h :: st.stack
      ctxs := (h, { flags := flags, device := device, apiVersion := defaultApiVersion,
                    cacheConfig := 0, sharedMemConfig := 0, limits := [] }) :: st.ctxs
      nextHandle := h + 1 })

/-- Modelled from the spec: cuCtxDestroy_v2 destroys a live context (failing
with an error on a dead handle); if the destroyed context is current on the
calling thread, the next context on the stack becomes current. -/
def cuCtxDestroy (h : CUcontext) (st : DriverState) : CUresult × DriverState :=
  if (st.ctxs.lookup h).isSome then
    (0, { st with
          ctxs := st.ctxs.filter (fun p => p.1 ≠ h)
          stack := if st.stack.head? = some h then st.stack.tail else st.stack })
  else (INVALID_CONTEXT, st)

/-- Modelled from the spec: cuCtxPopCurrent_v2 removes and returns the top of
the calling thread's stack, failing if the stack is empty. -/
def cuCtxPopCurrent (st : DriverState) : CUresult × CUcontext × DriverState :=
  match st.stack with
  | [] => (INVALID_CONTEXT, 0, st)
  | h :: rest => (0, h, { st with stack := rest })

/-- Modelled from the spec: cuCtxPushCurrent_v2 pushes a live handle onto the
calling thread's stack; a dead handle is reported as an error. -/
def cuCtxPushCurrent (h : CUcontext) (st : DriverState) : CUresult × DriverState :=
  if (st.ctxs.lookup h).isSome then (0, { st with stack := h :: st.stack })
  else (INVALID_CONTEXT, st)

/-- Modelled from the spec: cuCtxGetCurrent returns the top of the calling
thread's stack; with an empty stack it signals the absence by succeeding with
the null handle (the platform's documented null/unset indication). -/
def cuCtxGetCurrent (st : DriverState) : CUresult × CUcontext × DriverState :=
  match st.stack with
  | [] => (0, 0, st)
  | h :: _ => (0, h, st)

/-- Modelled from the spec: cuCtxSetCurrent pushes the handle if the calling
thread's stack is empty and otherwise replaces the top entry; a dead handle
is reported as an error. -/
def cuCtxSetCurrent (h : CUcontext) (st : DriverState) : CUresult × DriverState :=
  if (st.ctxs.lookup h).isSome then
    match st.stack with
    | [] => (0, { st with stack := [h] })
    | _ :: rest => (0, { st with stack := h :: rest })
  else (INVALID_CONTEXT, st)

/-- Modelled from the spec: cuCtxGetApiVersion returns the 32-bit API version
recorded for a live handle, and an error for a dead one. -/
def cuCtxGetApiVersion (h : CUcontext) (st : DriverState) :
    CUresult × Nat × DriverState :=
  match st.ctxs.lookup h with
  | some info => (0, info.apiVersion % 4294967296, st)
  | none => (INVALID_CONTEXT, 0, st)

/-- Modelled from the spec: cuCtxGetDevice returns the device bound to the
current context, and an error when no context is current. -/
def cuCtxGetDevice (st : DriverState) : CUresult × Int × DriverState :=
  match st.currentInfo with
  | some info => (0, info.device, st)
  | none => (INVALID_CONTEXT, 0, st)

/-- Modelled from the spec: cuCtxGetFlags returns the creation flag bits of
the current context, and an error when no context is current. -/
def cuCtxGetFlags (st : DriverState) : CUresult × Nat × DriverState :=
  match st.currentInfo with
  | some info => (0, info.flags % 4294967296, st)
  | none => (INVALID_CONTEXT, 0, st)

/-- Modelled from the spec: cuCtxGetCacheConfig reads the current context's
cache-configuration code, erroring when no context is current. -/
def cuCtxGetCacheConfig (st : DriverState) : CUresult × Nat × DriverState :=
  match st.currentInfo with
  | some info => (0, info.cacheConfig, st)
  | none => (INVALID_CONTEXT, 0, st)

/-- Modelled from the spec: cuCtxSetCacheConfig records an advisory
cache-configuration preference on the current context, erroring when no
context is current. -/
def cuCtxSetCacheConfig (cfg : Nat) (st : DriverState) : CUresult × DriverState :=
  match st.stack with
  | [] => (INVALID_CONTEXT, st)
  | h :: _ =>
    match st.ctxs.lookup h with
    | some _ => (0, st.updateCtx h (fun i => { i with cacheConfig := cfg }))
    | none => (INVALID_CONTEXT, st)

/-- Modelled from the spec: cuCtxGetSharedMemConfig reads the current
context's shared-memory bank configuration code, erroring when no context is
current. -/
def cuCtxGetSharedMemConfig (st : DriverState) : CUresult × Nat × DriverState :=
  match st.currentInfo with
  | some info => (0, info.sharedMemConfig, st)
  | none => (INVALID_CONTEXT, 0, st)

/-- Modelled from the spec: cuCtxSetSharedMemConfig records an advisory
shared-memory bank configuration on the current context, erroring when no
context is current. -/
def cuCtxSetSharedMemConfig (cfg : Nat) (st : DriverState) : CUresult × DriverState :=
  match st.stack with
  | [] => (INVALID_CONTEXT, st)
  | h :: _ =>
    match st.ctxs.lookup h with
    | some _ => (0, st.updateCtx h (fun i => { i with sharedMemConfig := cfg }))
    | none => (INVALID_CONTEXT, st)

/-- Modelled from the spec: cuCtxGetLimit reads a resource limit of the
current context (0 when never set), erroring when no context is current. -/
def cuCtxGetLimit (limit : Nat) (st : DriverState) : CUresult × Nat × DriverState :=
  match st.currentInfo with
  | some info => (0, (info.limits.lookup limit).getD 0, st)
  | none => (INVALID_CONTEXT, 0, st)

/-- Modelled from the spec: cuCtxSetLimit requests a resource limit on the
current context, erroring when no context is current. -/
def cuCtxSetLimit (limit value : Nat) (st : DriverState) : CUresult × DriverState :=
  match st.stack with
  | [] => (INVALID_CONTEXT, st)
  | h :: _ =>
    match st.ctxs.lookup h with
    | some _ => (0, st.updateCtx h (fun i => { i with limits := (limit, value) :: i.limits }))
    | none => (INVALID_CONTEXT, st)

/-- Modelled from the spec: cuCtxGetStreamPriorityRange reports the stream
priority bounds of the current context (zeroes when unsupported), erroring
when no context is current. -/
def cuCtxGetStreamPriorityRange (st : DriverState) : CUresult × Int × Int × DriverState :=
  match st.currentInfo with
  | some _ => (0, 0, 0, st)
  | none => (INVALID_CONTEXT, 0, 0, st)

/-- Modelled from the spec: cuCtxSynchronize blocks until the current
context's work completes, erroring when no context is current. -/
def cuCtxSynchronize (st : DriverState) : CUresult × DriverState :=
  match st.currentInfo with
  | some _ => (0, st)
  | none => (INVALID_CONTEXT, st)

/-! Wrapper layer, translated from src/src/context.rs. `CudaResult` is the
crate's result type; the error side keeps the native status code, matching
the `toResult` mapping of the error collaborator (0 maps to Ok, any other
code to Err carrying that code). -/

/-- Result type of the crate: Ok, or Err carrying the nonzero native code. -/
abbrev CudaResult (α : Type) := Except CUresult α

/-- Translation of the `toResult` mapping used by every native call site. -/
def toResult (code : CUresult) : CudaResult Unit :=
  if code = 0 then .ok () else .error code

/-- Bit flags for initializing the CUDA context (bitflags struct, u32). -/
structure ContextFlags where
  bits : Nat
  deriving DecidableEq, Repr

/-- Mask of all flag bits declared in the bitflags block:
SCHED_SPIN 0x01, SCHED_YIELD 0x02, SCHED_BLOCKING_SYNC 0x04, SCHED_AUTO 0x00,
MAP_HOST 0x08, LMEM_RESIZE_TO_MAX 0x10. -/
def ContextFlags.allBits : Nat := 0x1F

/-- Translation of bitflags `from_bits_truncate`: keep only declared bits. -/
def ContextFlags.from_bits_truncate (n : Nat) : ContextFlags :=
  ⟨n &&& ContextFlags.allBits⟩

/-- Whether a flag value is one the bitflags API can construct. -/
def ContextFlags.valid (f : ContextFlags) : Prop :=
  f.bits &&& ContextFlags.allBits = f.bits

/-- Opaque device identifier (CUdevice, an i32). -/
structure Device where
  device : Int
  deriving DecidableEq, Repr

/-- Translation of `CudaApiVersion { version: i32 }`. -/
structure CudaApiVersion where
  version : Int
  deriving DecidableEq, Repr

/-- Reinterpretation of a u32 value as an i32, embedding Rust's `as i32`. -/
def u32_as_i32 (n : Nat) : Int :=
  if n % 4294967296 < 2147483648 then ((n % 4294967296 : Nat) : Int)
  else ((n % 4294967296 : Nat) : Int) - 4294967296

/-- Translation of `CacheConfig` (repr u32). -/
inductive CacheConfig
  | PreferNone
  | PreferShared
  | PreferL1
  | PreferEqual
  deriving DecidableEq, Repr

/-- Discriminant values of `CacheConfig`, as in the repr(u32) enum. -/
def CacheConfig.toNat : CacheConfig → Nat
  | .PreferNone => 0
  | .PreferShared => 1
  | .PreferL1 => 2
  | .PreferEqual => 3

/-- Reading a u32 discriminant back into `CacheConfig` (the native layer only
writes valid discriminants). -/
def CacheConfig.fromNative (n : Nat) : CacheConfig :=
  if n = 1 then .PreferShared else if n = 2 then .PreferL1
  else if n = 3 then .PreferEqual else .PreferNone

/-- Translation of `SharedMemoryConfig` (repr u32). -/
inductive SharedMemoryConfig
  | DefaultBankSize
  | FourByteBankSize
  | EightByteBankSize
  deriving DecidableEq, Repr

/-- Discriminant values of `SharedMemoryConfig`. -/
def SharedMemoryConfig.toNat : SharedMemoryConfig → Nat
  | .DefaultBankSize => 0
  | .FourByteBankSize => 1
  | .EightByteBankSize => 2

/-- Reading a u32 discriminant back into `SharedMemoryConfig`. -/
def SharedMemoryConfig.fromNative (n : Nat) : SharedMemoryConfig :=
  if n = 1 then .FourByteBankSize else if n = 2 then .EightByteBankSize
  else .DefaultBankSize

/-- Translation of `ResourceLimit` (repr u32). -/
inductive ResourceLimit
  | StackSize
  | PrintfFifoSize
  | MallocHeapSize
  | DeviceRuntimeSynchronizeDepth
  | DeviceRuntimePendingLaunchCount
  | MaxL2FetchGranularity
  deriving DecidableEq, Repr

/-- Discriminant values of `ResourceLimit` (the `transmute(resource)` image). -/
def ResourceLimit.toNat : ResourceLimit → Nat
  | .StackSize => 0
  | .PrintfFifoSize => 1
  | .MallocHeapSize => 2
  | .DeviceRuntimeSynchronizeDepth => 3
  | .DeviceRuntimePendingLaunchCount => 4
  | .MaxL2FetchGranularity => 5

/-- Translation of the range struct returned by get_stream_priority_range. -/
structure StreamPriorityRange where
  least : Int
  greatest : Int
  deriving DecidableEq, Repr

/-- Owned handle to a CUDA context (`struct Context { inner: CUcontext }`). -/
structure Context where
  inner : CUcontext
  deriving DecidableEq, Repr

/-- Non-owning handle (`struct UnownedContext { inner: CUcontext }`). -/
structure UnownedContext where
  inner : CUcontext
  deriving DecidableEq, Repr

/-- The sealed `ContextHandle` trait has exactly two implementers; modelled
as a closed sum of the two handle types. -/
inductive ContextHandle
  | owning (c : Context)
  | unowned (u : UnownedContext)
  deriving DecidableEq, Repr

/-- Translation of `ContextHandle::get_inner` for both implementations. -/
def ContextHandle.get_inner : ContextHandle → CUcontext
  | .owning c => c.inner
  | .unowned u => u.inner

/-- Translation of `Context::create_and_push`: calls cuCtxCreate_v2 and on
success wraps the new handle. Note the source performs no pop despite its
inner comment; the new context stays on the creating thread's stack. -/
def Context.create_and_push (flags : ContextFlags) (device : Device)
    (st : DriverState) : CudaResult Context × DriverState :=
  let (code, ctx, st') := cuCtxCreate flags.bits device.device st
  if code = 0 then (.ok { inner := ctx }, st') else (.error code, st')

/-- Translation of `Context::get_api_version`: native call, then the u32
output is converted with `as i32` into `CudaApiVersion`. -/
def Context.get_api_version (c : Context) (st : DriverState) :
    CudaResult CudaApiVersion × DriverState :=
  let (code, v, st') := cuCtxGetApiVersion c.inner st
  if code = 0 then (.ok { version := u32_as_i32 v }, st') else (.error code, st')

/-- Translation of `Context::get_unowned`: a pure copy of the inner handle,
with no native call and no state effect (it does not even take the state). -/
def Context.get_unowned (c : Context) : UnownedContext :=
  { inner := c.inner }

/-- Outcome of running a Rust destructor: normal continuation with the next
state, or a panic (the `unwrap` on a native error), which never returns an
error value to the caller. -/
inductive DropOutcome
  | ok (st : DriverState)
  | panicked (code : CUresult)
  deriving DecidableEq, Repr

/-- Translation of `impl Drop for Context`: one cuCtxDestroy_v2 call whose
result is `unwrap`ped, so a native failure panics instead of returning. -/
def Context.drop (c : Context) (st : DriverState) : DropOutcome :=
  let (code, st') := cuCtxDestroy c.inner st
  if code = 0 then .ok st' else .panicked code

/-- Translation of `UnownedContext::get_api_version` (same body as the
owning version, on the same inner handle). -/
def UnownedContext.get_api_version (u : UnownedContext) (st : DriverState) :
    CudaResult CudaApiVersion × DriverState :=
  let (code, v, st') := cuCtxGetApiVersion u.inner st
  if code = 0 then (.ok { version := u32_as_i32 v }, st') else (.error code, st')

/-- Translation of `ContextStack::pop`: native pop, wrapping the returned
handle as an `UnownedContext`. -/
def ContextStack.pop (st : DriverState) : CudaResult UnownedContext × DriverState :=
  let (code, ctx, st') := cuCtxPopCurrent st
  if code = 0 then (.ok { inner := ctx }, st') else (.error code, st')

/-- Translation of `ContextStack::push`: native push of `ctx.get_inner()`. -/
def ContextStack.push (ctx : ContextHandle) (st : DriverState) :
    CudaResult Unit × DriverState :=
  let (code, st') := cuCtxPushCurrent ctx.get_inner st
  if code = 0 then (.ok (), st') else (.error code, st')

/-- Translation of `CurrentContext::get_cache_config`. -/
def CurrentContext.get_cache_config (st : DriverState) :
    CudaResult CacheConfig × DriverState :=
  let (code, cfg, st') := cuCtxGetCacheConfig st
  if code = 0 then (.ok (CacheConfig.fromNative cfg), st') else (.error code, st')

/-- Translation of `CurrentContext::get_device`. -/
def CurrentContext.get_device (st : DriverState) : CudaResult Device × DriverState :=
  let (code, d, st') := cuCtxGetDevice st
  if code = 0 then (.ok { device := d }, st') else (.error code, st')

/-- Translation of `CurrentContext::get_flags`: the native u32 is read back
with `ContextFlags::from_bits_truncate`. -/
def CurrentContext.get_flags (st : DriverState) :
    CudaResult ContextFlags × DriverState :=
  let (code, f, st') := cuCtxGetFlags st
  if code = 0 then (.ok (ContextFlags.from_bits_truncate f), st') else (.error code, st')

/-- Translation of `CurrentContext::get_resource_limit`. -/
def CurrentContext.get_resource_limit (r : ResourceLimit) (st : DriverState) :
    CudaResult Nat × DriverState :=
  let (code, v, st') := cuCtxGetLimit r.toNat st
  if code = 0 then (.ok v, st') else (.error code, st')

/-- Translation of `CurrentContext::get_shared_memory_config`. -/
def CurrentContext.get_shared_memory_config (st : DriverState) :
    CudaResult SharedMemoryConfig × DriverState :=
  let (code, cfg, st') := cuCtxGetSharedMemConfig st
  if code = 0 then (.ok (SharedMemoryConfig.fromNative cfg), st') else (.error code, st')

/-- Translation of `CurrentContext::get_stream_priority_range`. -/
def CurrentContext.get_stream_priority_range (st : DriverState) :
    CudaResult StreamPriorityRange × DriverState :=
  let (code, least, greatest, st') := cuCtxGetStreamPriorityRange st
  if code = 0 then (.ok { least := least, greatest := greatest }, st')
  else (.error code, st')

/-- Translation of `CurrentContext::set_cache_config`. -/
def CurrentContext.set_cache_config (cfg : CacheConfig) (st : DriverState) :
    CudaResult Unit × DriverState :=
  let (code, st') := cuCtxSetCacheConfig cfg.toNat st
  if code = 0 then (.ok (), st') else (.error code, st')

/-- Translation of `CurrentContext::set_resource_limit`. -/
def CurrentContext.set_resource_limit (r : ResourceLimit) (limit : Nat)
    (st : DriverState) : CudaResult Unit × DriverState :=
  let (code, st') := cuCtxSetLimit r.toNat limit st
  if code = 0 then (.ok (), st') else (.error code, st')

/-- Translation of `CurrentContext::set_shared_memory_config`. -/
def CurrentContext.set_shared_memory_config (cfg : SharedMemoryConfig)
    (st : DriverState) : CudaResult Unit × DriverState :=
  let (code, st') := cuCtxSetSharedMemConfig cfg.toNat st
  if code = 0 then (.ok (), st') else (.error code, st')

/-- Translation of `CurrentContext::get_current`: native cuCtxGetCurrent,
wrapping whatever handle comes back (the null handle included) without any
emptiness check. -/
def CurrentContext.get_current (st : DriverState) :
    CudaResult UnownedContext × DriverState :=
  let (code, ctx, st') := cuCtxGetCurrent st
  if code = 0 then (.ok { inner := ctx }, st') else (.error code, st')

/-- Translation of `CurrentContext::set_current` (generic over the sealed
`ContextHandle` trait). -/
def CurrentContext.set_current (c : ContextHandle) (st : DriverState) :
    CudaResult Unit × DriverState :=
  let (code, st') := cuCtxSetCurrent c.get_inner st
  if code = 0 then (.ok (), st') else (.error code, st')

/-- Translation of `CurrentContext::synchronize`. -/
def CurrentContext.synchronize (st : DriverState) : CudaResult Unit × DriverState :=
  let (code, st') := cuCtxSynchronize st
  if code = 0 then (.ok (), st') else (.error code, st')

/-! Concrete states used to exercise the definitions. -/

/-- Fresh driver state: empty stack, no live context, first handle is 1. -/
def st0 : DriverState := { stack := [], ctxs := [], nextHandle := 1 }

/-- Flag value MAP_HOST ||| SCHED_AUTO, the default recommended in the docs. -/
def defaultFlags : ContextFlags := ⟨0x08⟩

/-- Device number 0. -/
def dev0 : Device := { device := 0 }

/-- State after creating one context on a fresh state (handle 1, current). -/
def stCreated : DriverState := (Context.create_and_push defaultFlags dev0 st0).2

/-- State after creating one context and popping it: live context 1, empty
stack. -/
def stPopped : DriverState := (ContextStack.pop stCreated).2

/-! Theorems settling the claims. -/

/-- C1 counterexample: the claim says every current-context operation on a
thread with an empty context stack returns an error, in particular
`get_current()` after create-then-pop. On the code, create then pop leaves
the stack empty, yet `get_current` returns `Ok` with the null handle: the
wrapper performs no normalization of the native layer's success-with-null
indication for an empty stack. -/
theorem C1_counterexample :
    (ContextStack.pop stCreated).1 = Except.ok ({ inner := 1 } : UnownedContext)
    ∧ stPopped.stack = []
    ∧ (CurrentContext.get_current stPopped).1
        = Except.ok ({ inner := 0 } : UnownedContext) := by
  refine ⟨rfl, rfl, rfl⟩

/-- C1 amended: every current-context operation except `get_current` fails
with the explicit CUDA_ERROR_INVALID_CONTEXT error when the calling thread's
stack is empty; `get_current` instead succeeds, returning the null handle
unchanged from the native layer. -/
theorem C1_empty_stack (st : DriverState) (h : st.stack = []) :
    (CurrentContext.get_device st).1 = Except.error INVALID_CONTEXT
    ∧ (CurrentContext.get_flags st).1 = Except.error INVALID_CONTEXT
    ∧ (CurrentContext.get_cache_config st).1 = Except.error INVALID_CONTEXT
    ∧ (CurrentContext.get_shared_memory_config st).1 = Except.error INVALID_CONTEXT
    ∧ (∀ r : ResourceLimit,
        (CurrentContext.get_resource_limit r st).1 = Except.error INVALID_CONTEXT)
    ∧ (∀ (r : ResourceLimit) (v : Nat),
        (CurrentContext.set_resource_limit r v st).1 = Except.error INVALID_CONTEXT)
    ∧ (∀ cfg : CacheConfig,
        (CurrentContext.set_cache_config cfg st).1 = Except.error INVALID_CONTEXT)
    ∧ (∀ cfg : SharedMemoryConfig,
        (CurrentContext.set_shared_memory_config cfg st).1 = Except.error INVALID_CONTEXT)
    ∧ (CurrentContext.get_stream_priority_range st).1 = Except.error INVALID_CONTEXT
    ∧ (CurrentContext.synchronize st).1 = Except.error INVALID_CONTEXT
    ∧ (CurrentContext.get_current st).1 = Except.ok ({ inner := 0 } : UnownedContext) := by
  have hc : st.currentInfo = none := by
    simp [DriverState.currentInfo, h]
  refine ⟨?_, ?_, ?_, ?_, ?_, ?_, ?_, ?_, ?_, ?_, ?_⟩
  · simp [CurrentContext.get_device, cuCtxGetDevice, hc, INVALID_CONTEXT]
  · simp [CurrentContext.get_flags, cuCtxGetFlags, hc, INVALID_CONTEXT]
  · simp [CurrentContext.get_cache_config, cuCtxGetCacheConfig, hc, INVALID_CONTEXT]
  · simp [CurrentContext.get_shared_memory_config, cuCtxGetSharedMemConfig, hc,
      INVALID_CONTEXT]
  · intro r
    simp [CurrentContext.get_resource_limit, cuCtxGetLimit, hc, INVALID_CONTEXT]
  · intro r v
    simp [CurrentContext.set_resource_limit, cuCtxSetLimit, h, INVALID_CONTEXT]
  · intro cfg
    simp [CurrentContext.set_cache_config, cuCtxSetCacheConfig, h, INVALID_CONTEXT]
  · intro cfg
    simp [CurrentContext.set_shared_memory_config, cuCtxSetSharedMemConfig, h,
      INVALID_CONTEXT]
  · simp [CurrentContext.get_stream_priority_range, cuCtxGetStreamPriorityRange, hc,
      INVALID_CONTEXT]
  · simp [CurrentContext.synchronize, cuCtxSynchronize, hc, INVALID_CONTEXT]
  · simp [CurrentContext.get_current, cuCtxGetCurrent, h]

/-- Witness for C1_empty_stack at the concrete create-then-pop state. -/
theorem C1_empty_stack_witness :
    (CurrentContext.get_device stPopped).1 = Except.error INVALID_CONTEXT
    ∧ (CurrentContext.synchronize stPopped).1 = Except.error INVALID_CONTEXT :=
  ⟨(C1_empty_stack stPopped rfl).1,
   (C1_empty_stack stPopped rfl).2.2.2.2.2.2.2.2.2.1⟩

/-- Removing the entries keyed `h` makes `h` unfindable. -/
theorem lookup_filter_ne (l : List (CUcontext × CtxInfo)) (h : CUcontext) :
    (l.filter (fun p => p.1 ≠ h)).lookup h = none := by
  induction l with
  | nil => rfl
  | cons a t ih =>
    by_cases hah : a.1 = h
    · simpa [List.filter_cons, hah] using ih
    · have hba : (h == a.1) = false := beq_eq_false_iff_ne.mpr (fun e => hah e.symm)
      simp [List.filter_cons, hah, List.lookup, hba, decide_not, ih]
      exact fun x y _ hxh e => hxh e.symm

/-- Updating a context's info in place leaves the set of live handles as is. -/
theorem liveHandles_updateCtx (st : DriverState) (h : CUcontext)
    (f : CtxInfo → CtxInfo) : (st.updateCtx h f).liveHandles = st.liveHandles := by
  show (st.ctxs.map _).map Prod.fst = st.ctxs.map Prod.fst
  induction st.ctxs with
  | nil => rfl
  | cons a t ih =>
    by_cases hah : a.1 = h <;> simp [hah, ih]

/-- C2: the destructor of an owning `Context` is the only operation that
performs the native destroy. On a live handle it destroys the context (the
handle is no longer live afterwards) and continues normally; if the native
destroy fails it panics, and in every case it either continues or panics —
it never hands an error value back. Dropping the same handle again panics,
so a second destroy through this path cannot succeed. Every other stateful
operation of the module preserves the set of live handles (creation only
adds a fresh one), and the query operations do not change the driver state
at all: no other API path reaches the destroy call. -/
theorem C2_drop_semantics (c : Context) (st : DriverState) :
    ((st.ctxs.lookup c.inner).isSome = true →
        Context.drop c st = DropOutcome.ok (cuCtxDestroy c.inner st).2
          ∧ ((cuCtxDestroy c.inner st).2.ctxs.lookup c.inner) = none)
    ∧ ((st.ctxs.lookup c.inner).isSome = false →
        Context.drop c st = DropOutcome.panicked INVALID_CONTEXT)
    ∧ (∀ st', Context.drop c st = DropOutcome.ok st' →
        Context.drop c st' = DropOutcome.panicked INVALID_CONTEXT)
    ∧ ((∃ st', Context.drop c st = DropOutcome.ok st')
        ∨ (∃ e, Context.drop c st = DropOutcome.panicked e))
    ∧ (∀ hnd, ((ContextStack.push hnd st).2).liveHandles = st.liveHandles)
    ∧ ((ContextStack.pop st).2.liveHandles = st.liveHandles)
    ∧ (∀ hnd, (CurrentContext.set_current hnd st).2.liveHandles = st.liveHandles)
    ∧ (∀ cfg, (CurrentContext.set_cache_config cfg st).2.liveHandles = st.liveHandles)
    ∧ (∀ cfg,
        (CurrentContext.set_shared_memory_config cfg st).2.liveHandles = st.liveHandles)
    ∧ (∀ r v,
        (CurrentContext.set_resource_limit r v st).2.liveHandles = st.liveHandles)
    ∧ (∀ f d, (Context.create_and_push f d st).2.liveHandles
        = st.nextHandle :: st.liveHandles)
    ∧ ((CurrentContext.get_current st).2 = st)
    ∧ ((CurrentContext.get_device st).2 = st)
    ∧ ((CurrentContext.get_flags st).2 = st)
    ∧ ((CurrentContext.synchronize st).2 = st)
    ∧ (Context.get_api_version c st).2 = st := by
  refine ⟨?_, ?_, ?_, ?_, ?_, ?_, ?_, ?_, ?_, ?_, ?_, ?_, ?_, ?_, ?_, ?_⟩
  · intro hl
    refine ⟨?_, ?_⟩
    · simp [Context.drop, cuCtxDestroy, hl]
    · simp only [cuCtxDestroy, hl, if_true]
      exact lookup_filter_ne st.ctxs c.inner
  · intro hl
    simp [Context.drop, cuCtxDestroy, hl, INVALID_CONTEXT]
  · intro st' hok
    by_cases hl : (st.ctxs.lookup c.inner).isSome = true
    · have hdrop : Context.drop c st = DropOutcome.ok (cuCtxDestroy c.inner st).2 := by
        simp [Context.drop, cuCtxDestroy, hl]
      rw [hdrop] at hok
      have hst' : (cuCtxDestroy c.inner st).2 = st' := by injection hok
      have hdead : (st'.ctxs.lookup c.inner) = none := by
        rw [← hst']
        simp only [cuCtxDestroy, hl, if_true]
        exact lookup_filter_ne st.ctxs c.inner
      simp [Context.drop, cuCtxDestroy, hdead, INVALID_CONTEXT]
    · simp [Context.drop, cuCtxDestroy, eq_false_of_ne_true hl, INVALID_CONTEXT] at hok
  · by_cases hl : (st.ctxs.lookup c.inner).isSome = true
    · exact Or.inl ⟨(cuCtxDestroy c.inner st).2,
        by simp [Context.drop, cuCtxDestroy, hl]⟩
    · exact Or.inr ⟨INVALID_CONTEXT,
        by simp [Context.drop, cuCtxDestroy, eq_false_of_ne_true hl, INVALID_CONTEXT]⟩
  · intro hnd
    by_cases hl : (st.ctxs.lookup hnd.get_inner).isSome = true <;>
      simp [ContextStack.push, cuCtxPushCurrent, hl, DriverState.liveHandles,
        INVALID_CONTEXT]
  · cases hs : st.stack <;>
      simp [ContextStack.pop, cuCtxPopCurrent, hs, DriverState.liveHandles,
        INVALID_CONTEXT]
  · intro hnd
    by_cases hl : (st.ctxs.lookup hnd.get_inner).isSome = true
    · cases hs : st.stack <;>
        simp [CurrentContext.set_current, cuCtxSetCurrent, hl, hs,
          DriverState.liveHandles]
    · simp [CurrentContext.set_current, cuCtxSetCurrent, hl,
        DriverState.liveHandles, INVALID_CONTEXT]
  · intro cfg
    cases hs : st.stack with
    | nil => simp [CurrentContext.set_cache_config, cuCtxSetCacheConfig, hs,
        INVALID_CONTEXT]
    | cons h t =>
      cases hlk : st.ctxs.lookup h <;>
        simp [CurrentContext.set_cache_config, cuCtxSetCacheConfig, hs, hlk,
          INVALID_CONTEXT, liveHandles_updateCtx]
  · intro cfg
    cases hs : st.stack with
    | nil => simp [CurrentContext.set_shared_memory_config, cuCtxSetSharedMemConfig,
        hs, INVALID_CONTEXT]
    | cons h t =>
      cases hlk : st.ctxs.lookup h <;>
        simp [CurrentContext.set_shared_memory_config, cuCtxSetSharedMemConfig, hs,
          hlk, INVALID_CONTEXT, liveHandles_updateCtx]
  · intro r v
    cases hs : st.stack with
    | nil => simp [CurrentContext.set_resource_limit, cuCtxSetLimit, hs,
        INVALID_CONTEXT]
    | cons h t =>
      cases hlk : st.ctxs.lookup h <;>
        simp [CurrentContext.set_resource_limit, cuCtxSetLimit, hs, hlk,
          INVALID_CONTEXT, liveHandles_updateCtx]
  · intro f d
    simp [Context.create_and_push, cuCtxCreate, DriverState.liveHandles]
  · cases hs : st.stack <;> simp [CurrentContext.get_current, cuCtxGetCurrent, hs]
  · cases hc : st.currentInfo <;>
      simp [CurrentContext.get_device, cuCtxGetDevice, hc, INVALID_CONTEXT]
  · cases hc : st.currentInfo <;>
      simp [CurrentContext.get_flags, cuCtxGetFlags, hc, INVALID_CONTEXT]
  · cases hc : st.currentInfo <;>
      simp [CurrentContext.synchronize, cuCtxSynchronize, hc, INVALID_CONTEXT]
  · cases hlk : st.ctxs.lookup c.inner <;>
      simp [Context.get_api_version, cuCtxGetApiVersion, hlk, INVALID_CONTEXT]

/-- Witness for C2_drop_semantics: dropping the context created in the
concrete scenario destroys it and continues normally; dropping it a second
time panics. -/
theorem C2_drop_semantics_witness :
    Context.drop { inner := 1 } stCreated
      = DropOutcome.ok (cuCtxDestroy 1 stCreated).2
    ∧ Context.drop { inner := 1 } (cuCtxDestroy 1 stCreated).2
      = DropOutcome.panicked INVALID_CONTEXT :=
  ⟨((C2_drop_semantics { inner := 1 } stCreated).1 (by decide)).1,
   (C2_drop_semantics { inner := 1 } stCreated).2.2.1 _
     ((C2_drop_semantics { inner := 1 } stCreated).1 (by decide)).1⟩

/-- C3 counterexample: the claim says a successful `create_and_push` leaves
the creating thread's stack unchanged because the implementation pops the
currency pushed by the native creation call. On the code there is no such
pop: starting from the empty stack, a successful create leaves the new
context on the stack. -/
theorem C3_counterexample :
    (Context.create_and_push defaultFlags dev0 st0).1
      = Except.ok ({ inner := 1 } : Context)
    ∧ st0.stack = []
    ∧ stCreated.stack = [1] :=
  ⟨rfl, rfl, rfl⟩

/-- C3 amended: a successful `create_and_push` returns the new context and
leaves it pushed on top of the creating thread's stack (depth grows by one);
the implementation does not relinquish the currency — the caller must pop
explicitly. -/
theorem C3_create_leaves_current (flags : ContextFlags) (device : Device)
    (st : DriverState) :
    (Context.create_and_push flags device st).1
      = Except.ok ({ inner := st.nextHandle } : Context)
    ∧ (Context.create_and_push flags device st).2.stack = st.nextHandle :: st.stack := by
  constructor <;> simp [Context.create_and_push, cuCtxCreate]

/-- C4: a successful `ContextStack::push` of any handle (owning or
non-owning) followed by `ContextStack::pop` on the same thread succeeds,
returns a non-owning handle with the same underlying native handle, and
restores the thread's stack to its state before the push. -/
theorem C4_push_pop_roundtrip (hnd : ContextHandle) (st st' : DriverState)
    (hp : ContextStack.push hnd st = (Except.ok (), st')) :
    ContextStack.pop st'
      = (Except.ok ({ inner := hnd.get_inner } : UnownedContext), st) := by
  by_cases hl : (st.ctxs.lookup hnd.get_inner).isSome = true
  · have hpush : ContextStack.push hnd st
        = (Except.ok (), { st with stack := hnd.get_inner :: st.stack }) := by
      simp [ContextStack.push, cuCtxPushCurrent, hl]
    rw [hpush] at hp
    have hst' : ({ st with stack := hnd.get_inner :: st.stack } : DriverState) = st' :=
      congrArg Prod.snd hp
    rw [← hst']
    obtain ⟨stack, ctxs, nh⟩ := st
    simp [ContextStack.pop, cuCtxPopCurrent]
  · simp [ContextStack.push, cuCtxPushCurrent, eq_false_of_ne_true hl,
      INVALID_CONTEXT] at hp

/-- Witness for C4_push_pop_roundtrip: pushing live context 1 onto the empty
stack and popping it returns handle 1 and restores the empty stack. -/
theorem C4_push_pop_roundtrip_witness :
    ContextStack.pop
        (ContextStack.push (ContextHandle.unowned { inner := 1 }) stPopped).2
      = (Except.ok ({ inner := 1 } : UnownedContext), stPopped) :=
  C4_push_pop_roundtrip (ContextHandle.unowned { inner := 1 }) stPopped
    (ContextStack.push (ContextHandle.unowned { inner := 1 }) stPopped).2 rfl

/-- C5: for a live handle, `set_current` on an empty stack has exactly the
effect of `push` (depth 0 to 1); on a non-empty stack it replaces the top
entry and keeps the depth; `push` always adds one entry on top. -/
theorem C5_set_current_vs_push (hnd : ContextHandle) (st : DriverState)
    (hl : (st.ctxs.lookup hnd.get_inner).isSome = true) :
    (st.stack = [] →
      CurrentContext.set_current hnd st
        = (Except.ok (), { st with stack := [hnd.get_inner] })
      ∧ CurrentContext.set_current hnd st = ContextStack.push hnd st)
    ∧ (∀ t rest, st.stack = t :: rest →
      CurrentContext.set_current hnd st
        = (Except.ok (), { st with stack := hnd.get_inner :: rest })
      ∧ (CurrentContext.set_current hnd st).2.stack.length = st.stack.length)
    ∧ ContextStack.push hnd st
        = (Except.ok (), { st with stack := hnd.get_inner :: st.stack })
    ∧ (ContextStack.push hnd st).2.stack.length = st.stack.length + 1 := by
  refine ⟨?_, ?_, ?_, ?_⟩
  · intro hs
    constructor
    · simp [CurrentContext.set_current, cuCtxSetCurrent, hl, hs]
    · simp [CurrentContext.set_current, cuCtxSetCurrent, ContextStack.push,
        cuCtxPushCurrent, hl, hs]
  · intro t rest hs
    constructor
    · simp [CurrentContext.set_current, cuCtxSetCurrent, hl, hs]
    · simp [CurrentContext.set_current, cuCtxSetCurrent, hl, hs]
  · simp [ContextStack.push, cuCtxPushCurrent, hl]
  · simp [ContextStack.push, cuCtxPushCurrent, hl]

/-- Witness for C5_set_current_vs_push: on the empty stack with live context
1, `set_current` produces the one-entry stack and agrees with `push`; on the
one-entry stack `push` grows the depth to two. -/
theorem C5_set_current_vs_push_witness :
    (CurrentContext.set_current (ContextHandle.unowned { inner := 1 }) stPopped
      = (Except.ok (), { stPopped with stack := [1] }))
    ∧ (ContextStack.push (ContextHandle.unowned { inner := 1 }) stCreated).2.stack.length
        = stCreated.stack.length + 1 :=
  ⟨((C5_set_current_vs_push (ContextHandle.unowned { inner := 1 }) stPopped rfl).1
      rfl).1,
   (C5_set_current_vs_push (ContextHandle.unowned { inner := 1 }) stCreated rfl).2.2.2⟩

/-- C6: `ContextStack::pop` fails with the explicit no-current-context error
exactly when the calling thread's stack is empty; on a non-empty stack it
removes the top entry only and returns a non-owning handle carrying that
entry's native handle. -/
theorem C6_pop_spec (st : DriverState) :
    (st.stack = [] → ContextStack.pop st = (Except.error INVALID_CONTEXT, st))
    ∧ (∀ t rest, st.stack = t :: rest →
        ContextStack.pop st
          = (Except.ok ({ inner := t } : UnownedContext), { st with stack := rest })) := by
  constructor
  · intro hs
    simp [ContextStack.pop, cuCtxPopCurrent, hs, INVALID_CONTEXT]
  · intro t rest hs
    simp [ContextStack.pop, cuCtxPopCurrent, hs]

/-- Witness for C6_pop_spec: popping the empty stack errors; popping the
one-entry stack returns handle 1 and empties the stack. -/
theorem C6_pop_spec_witness :
    ContextStack.pop st0 = (Except.error INVALID_CONTEXT, st0)
    ∧ ContextStack.pop stCreated
      = (Except.ok ({ inner := 1 } : UnownedContext), { stCreated with stack := [] }) :=
  ⟨(C6_pop_spec st0).1 rfl, (C6_pop_spec stCreated).2 1 [] rfl⟩

/-- C7: for an owning context, querying the API version through the derived
non-owning handle is the very same computation as querying it directly (same
Ok value or same error, same state), and `get_unowned` is a pure copy of the
inner handle — it takes no driver state and performs no native call. -/
theorem C7_unowned_same_api_version (c : Context) (st : DriverState) :
    UnownedContext.get_api_version (Context.get_unowned c) st
      = Context.get_api_version c st
    ∧ (Context.get_unowned c).inner = c.inner :=
  ⟨rfl, rfl⟩

/-- C9: the stack operations observe only the underlying native handle, so
an owning context and its derived non-owning handle are interchangeable for
`push` and `set_current`. -/
theorem C9_handles_interchangeable (c : Context) (st : DriverState) :
    ContextStack.push (ContextHandle.owning c) st
      = ContextStack.push (ContextHandle.unowned (Context.get_unowned c)) st
    ∧ CurrentContext.set_current (ContextHandle.owning c) st
      = CurrentContext.set_current (ContextHandle.unowned (Context.get_unowned c)) st :=
  ⟨rfl, rfl⟩

/-- C8: creating a context with any flag value the bitflags API can build
and leaving it current, `get_flags` returns exactly the creation flags: the
native layer reports the stored u32 bits and `from_bits_truncate` keeps all
of them because they lie inside the declared mask. -/
theorem C8_flags_roundtrip (f : ContextFlags) (d : Device) (st : DriverState)
    (hf : f.valid) :
    (CurrentContext.get_flags (Context.create_and_push f d st).2).1 = Except.ok f := by
  have hle : f.bits ≤ 31 := by
    have h1 : f.bits &&& ContextFlags.allBits ≤ ContextFlags.allBits :=
      Nat.and_le_right
    rw [hf] at h1
    simpa [ContextFlags.allBits] using h1
  have hmod : f.bits % 4294967296 = f.bits := Nat.mod_eq_of_lt (by omega)
  obtain ⟨bits⟩ := f
  have hf' : bits &&& 31 = bits := by
    simpa [ContextFlags.valid, ContextFlags.allBits] using hf
  simp [CurrentContext.get_flags, cuCtxGetFlags, Context.create_and_push,
    cuCtxCreate, DriverState.currentInfo, List.lookup, hmod,
    ContextFlags.from_bits_truncate, ContextFlags.allBits, hf']

/-- Witness for C8_flags_roundtrip: creating with MAP_HOST ||| SCHED_AUTO
and reading the flags back returns exactly those flags. -/
theorem C8_flags_roundtrip_witness :
    (CurrentContext.get_flags (Context.create_and_push defaultFlags dev0 st0).2).1
      = Except.ok defaultFlags :=
  C8_flags_roundtrip defaultFlags dev0 st0 rfl

/-- Squashing a value into u32 range is idempotent under `u32_as_i32`. -/
theorem u32_as_i32_mod (n : Nat) : u32_as_i32 (n % 4294967296) = u32_as_i32 n := by
  have h : n % 4294967296 % 4294967296 = n % 4294967296 :=
    Nat.mod_mod_of_dvd n dvd_rfl
  simp [u32_as_i32, h]

/-- The i32 reinterpretation keeps the 32 low bits of the value. -/
theorem u32_as_i32_emod (n : Nat) :
    (u32_as_i32 n) % (4294967296 : Int) = ((n % 4294967296 : Nat) : Int) := by
  unfold u32_as_i32
  by_cases hlt : n % 4294967296 < 2147483648 <;> simp [hlt]

/-- A u32 value with the top bit set reinterprets to a negative i32. -/
theorem u32_as_i32_neg (n : Nat) (h : 2147483648 ≤ n % 4294967296) :
    u32_as_i32 n < 0 := by
  unfold u32_as_i32
  rw [if_neg (by omega)]
  have h1 : n % 4294967296 < 4294967296 := Nat.mod_lt _ (by norm_num)
  omega

/-- C10: when the native call succeeds, `get_api_version` (through either
handle type) returns Ok — never an error — carrying the native u32 version
reinterpreted bit-for-bit as an i32: the result is congruent to the native
value modulo 2^32, and a native value of 2^31 or more comes back negative. -/
theorem C10_api_version_cast (c : Context) (st : DriverState) (info : CtxInfo)
    (hl : st.ctxs.lookup c.inner = some info) :
    Context.get_api_version c st
      = (Except.ok { version := u32_as_i32 info.apiVersion }, st)
    ∧ UnownedContext.get_api_version (Context.get_unowned c) st
      = (Except.ok { version := u32_as_i32 info.apiVersion }, st)
    ∧ (u32_as_i32 info.apiVersion) % (4294967296 : Int)
      = ((info.apiVersion % 4294967296 : Nat) : Int)
    ∧ (2147483648 ≤ info.apiVersion % 4294967296 → u32_as_i32 info.apiVersion < 0) := by
  refine ⟨?_, ?_, u32_as_i32_emod info.apiVersion, u32_as_i32_neg info.apiVersion⟩
  · simp [Context.get_api_version, cuCtxGetApiVersion, hl, u32_as_i32_mod]
  · simp [UnownedContext.get_api_version, Context.get_unowned, cuCtxGetApiVersion,
      hl, u32_as_i32_mod]

/-- Live context whose recorded API version has the top u32 bit set. -/
def bigVersionInfo : CtxInfo :=
  { flags := 8, device := 0, apiVersion := 2147483648,
    cacheConfig := 0, sharedMemConfig := 0, limits := [] }

/-- Driver state holding the context of `bigVersionInfo` as context 1. -/
def stBig : DriverState :=
  { stack := [1], ctxs := [(1, bigVersionInfo)], nextHandle := 2 }

/-- Witness for C10_api_version_cast: a native version of 2^31 is returned
as Ok with a negative version value. -/
theorem C10_api_version_cast_witness :
    Context.get_api_version { inner := 1 } stBig
      = (Except.ok { version := u32_as_i32 2147483648 }, stBig)
    ∧ u32_as_i32 (2147483648 : Nat) < 0 :=
  ⟨(C10_api_version_cast { inner := 1 } stBig bigVersionInfo rfl).1,
   (C10_api_version_cast { inner := 1 } stBig bigVersionInfo rfl).2.2.2 (by decide)⟩

end RustaCuda
